import Mathlib

/-!
Verification of the Superior Plus Propane integration
(`custom_components/superior_plus_propane`).

The Python source is shallowly embedded: floats are modelled as exact
rationals (`ℚ`), Python dicts keyed by tank id as association lists,
fallible `float(...)` parsing as `Option ℚ`, and the network layer as
explicit oracles/traces.  Every definition mirrors the corresponding
function of the source files (`coordinator.py`, `const.py`, `region.py`,
`api_us.py`, `api_ca.py`); theorems settle the spec claims about them.
-/

namespace SuperiorPropane

/-- A raw field of a scraped tank record, as seen by Python `float(tank.get(key, default))`:
the key can be missing (the default is used), hold a numeric value, or hold a
string that does not parse as a number (raising `ValueError`). -/
inductive PyVal where
  | missing
  | num (q : ℚ)
  | nonnum
deriving DecidableEq, Repr

/-- `float(tank.get(key, default))`: `none` models the `ValueError`/`TypeError` path. -/
def pyFloat (default : ℚ) : PyVal → Option ℚ
  | .missing => some default
  | .num q => some q
  | .nonnum => none

/-- Lookup in an association-list model of a Python dict (`d.get(k)`). -/
def lookup {α : Type} (m : List (String × α)) (k : String) : Option α :=
  (m.find? (fun p => p.1 == k)).map (fun p => p.2)

/-- Assignment `d[k] = v` on the association-list model of a Python dict. -/
def upd {α : Type} (m : List (String × α)) (k : String) (v : α) : List (String × α) :=
  (k, v) :: m.filter (fun p => p.1 != k)

theorem lookup_upd_self {α : Type} (m : List (String × α)) (k : String) (v : α) :
    lookup (upd m k v) k = some v := by
  simp [lookup, upd, List.find?]

theorem lookup_upd_ne {α : Type} (m : List (String × α)) (k k' : String) (v : α)
    (h : k' ≠ k) : lookup (upd m k v) k' = lookup m k' := by
  have hbeq : ((k, v).1 == k') = false := by
    simp only [beq_eq_false_iff_ne, ne_eq]
    exact fun hk => absurd hk.symm h
  simp only [lookup, upd, List.find?_cons, hbeq, List.find?_filter]
  have hpred : (fun a : String × α => decide ((a.1 != k) = true ∧ (a.1 == k') = true))
      = fun p : String × α => p.1 == k' := by
    funext p
    by_cases hp : p.1 = k'
    · simp only [hp, bne, decide_eq_true_eq, beq_iff_eq, decide_eq_decide]
      simp [h]
    · simp [hp]
  rw [hpred]

/-- Region configuration (`region.py`, `RegionConfig`): the numeric fields the
consumption engine and clients read.  Display-only string fields are omitted. -/
structure RegionConfig where
  volume_to_energy_factor : ℚ
  default_update_interval : ℚ
  default_min_threshold : ℚ
  default_max_threshold : ℚ
  absolute_min_consumption : ℚ
  absolute_max_consumption : ℚ
  tank_size_min : ℚ
  tank_size_max : ℚ
  max_api_retries : Nat
  retry_interval : ℚ
  auth_settle_delay : ℚ
deriving DecidableEq, Repr

/-- `US_REGION_CONFIG` (`region.py` lines 49-73), numeric fields. -/
def usRegionConfig : RegionConfig where
  volume_to_energy_factor := 3639/100
  default_update_interval := 3600
  default_min_threshold := 1/100
  default_max_threshold := 25
  absolute_min_consumption := 1/100
  absolute_max_consumption := 50
  tank_size_min := 20
  tank_size_max := 2000
  max_api_retries := 2
  retry_interval := 300
  auth_settle_delay := 0

/-- `CA_REGION_CONFIG` (`region.py` lines 75-99), numeric fields. -/
def caRegionConfig : RegionConfig where
  volume_to_energy_factor := 272297/1000000
  default_update_interval := 7200
  default_min_threshold := 1/100
  default_max_threshold := 25
  absolute_min_consumption := 1/100
  absolute_max_consumption := 50
  tank_size_min := 18
  tank_size_max := 227125
  max_api_retries := 4
  retry_interval := 300
  auth_settle_delay := 8

/-- `MIN_CONSUMPTION_PERCENTAGE` (`const.py` line 24). -/
def MIN_CONSUMPTION_PERCENTAGE : ℚ := 1/10000

/-- `MAX_CONSUMPTION_PERCENTAGE` (`const.py` line 25). -/
def MAX_CONSUMPTION_PERCENTAGE : ℚ := 1/20

/-- `DATA_VALIDATION_TOLERANCE` (`const.py` line 28). -/
def DATA_VALIDATION_TOLERANCE : ℚ := 1/10

/-- `PERCENT_MULTIPLIER` (`const.py` line 32). -/
def PERCENT_MULTIPLIER : ℚ := 100

/-- `SECONDS_PER_HOUR` (`const.py` line 31). -/
def SECONDS_PER_HOUR : ℚ := 3600

/-- `MAX_STALE_DATA_HOURS` (`const.py` line 35). -/
def MAX_STALE_DATA_HOURS : ℚ := 4

/-- Coordinator threshold configuration read from the config entry
(`coordinator.py` lines 69-77). -/
structure CoordConfig where
  use_dynamic_thresholds : Bool
  min_threshold_override : Option ℚ
  max_threshold_override : Option ℚ
deriving DecidableEq, Repr

/-- `SuperiorPlusPropaneDataUpdateCoordinator._calculate_dynamic_thresholds`
(`coordinator.py` lines 106-164), returning `(min_threshold, max_threshold)`. -/
def calculateDynamicThresholds (rc : RegionConfig) (cfg : CoordConfig)
    (tank_size update_interval_hours : ℚ) : ℚ × ℚ :=
  if cfg.min_threshold_override.isSome ∧ cfg.max_threshold_override.isSome then
    (cfg.min_threshold_override.getD 0, cfg.max_threshold_override.getD 0)
  else if cfg.min_threshold_override.isSome ∨ cfg.max_threshold_override.isSome then
    if cfg.use_dynamic_thresholds then
      let min_dynamic :=
        max rc.absolute_min_consumption
          (tank_size * MIN_CONSUMPTION_PERCENTAGE * update_interval_hours)
      let max_dynamic :=
        min rc.absolute_max_consumption
          (tank_size * MAX_CONSUMPTION_PERCENTAGE * update_interval_hours)
      (cfg.min_threshold_override.getD min_dynamic,
       cfg.max_threshold_override.getD max_dynamic)
    else
      (cfg.min_threshold_override.getD rc.default_min_threshold,
       cfg.max_threshold_override.getD rc.default_max_threshold)
  else if cfg.use_dynamic_thresholds = false then
    (rc.default_min_threshold, rc.default_max_threshold)
  else
    (max rc.absolute_min_consumption
       (tank_size * MIN_CONSUMPTION_PERCENTAGE * update_interval_hours),
     min rc.absolute_max_consumption
       (tank_size * MAX_CONSUMPTION_PERCENTAGE * update_interval_hours))

/-- Modelled from the spec's five-case description of threshold resolution
(spec §4.2 "Threshold resolution"), for comparison with
`calculateDynamicThresholds`: both overrides verbatim; exactly one
override with adaptive mode on substitutes the clamped percentage formula
for the missing bound; exactly one override with adaptive mode off uses the
region default for the missing bound; no overrides uses defaults (adaptive
off) or both clamped formulas (adaptive on). -/
def thresholdsSpec (rc : RegionConfig) (cfg : CoordConfig)
    (tank_size update_interval_hours : ℚ) : ℚ × ℚ :=
  let lowDynamic :=
    max rc.absolute_min_consumption
      (tank_size * MIN_CONSUMPTION_PERCENTAGE * update_interval_hours)
  let highDynamic :=
    min rc.absolute_max_consumption
      (tank_size * MAX_CONSUMPTION_PERCENTAGE * update_interval_hours)
  match cfg.min_threshold_override, cfg.max_threshold_override with
  | some mn, some mx => (mn, mx)
  | some mn, none =>
      if cfg.use_dynamic_thresholds then (mn, highDynamic)
      else (mn, rc.default_max_threshold)
  | none, some mx =>
      if cfg.use_dynamic_thresholds then (lowDynamic, mx)
      else (rc.default_min_threshold, mx)
  | none, none =>
      if cfg.use_dynamic_thresholds then (lowDynamic, highDynamic)
      else (rc.default_min_threshold, rc.default_max_threshold)

/-- Claim C2: threshold resolution is exactly the five-case function of
(minOverride, maxOverride, adaptiveMode, tankSize, intervalHours) described by
the spec: both overrides verbatim regardless of adaptive mode; one override
with adaptive mode on pairs it with the clamped percentage bound; one override
with adaptive mode off pairs it with the region default; no overrides gives
the region defaults (adaptive off) or both clamped percentage bounds
(adaptive on). -/
theorem c2_threshold_resolution_five_cases (rc : RegionConfig) (cfg : CoordConfig)
    (tank_size update_interval_hours : ℚ) :
    calculateDynamicThresholds rc cfg tank_size update_interval_hours
      = thresholdsSpec rc cfg tank_size update_interval_hours := by
  unfold calculateDynamicThresholds thresholdsSpec
  rcases hmn : cfg.min_threshold_override with _ | mn <;>
    rcases hmx : cfg.max_threshold_override with _ | mx <;>
      cases hd : cfg.use_dynamic_thresholds <;>
        simp [hmn, hmx, hd, Option.getD]

/-- Claim C4, counterexample: with no overrides, adaptive mode on, tank size 20
(within the US region bounds 20..2000) and the clamped interval 0.001 h that a
positive 1-second poll interval produces, the resolved pair is
(0.01, 0.001), which violates minThreshold ≤ maxThreshold. -/
theorem c4_counterexample :
    (20 : ℚ) ≥ usRegionConfig.tank_size_min ∧ (20 : ℚ) ≤ usRegionConfig.tank_size_max ∧
    max (1/1000 : ℚ) (1 / SECONDS_PER_HOUR) = 1/1000 ∧
    calculateDynamicThresholds usRegionConfig
        ⟨true, none, none⟩ 20 (1/1000) = (1/100, 1/1000) ∧
    ¬ ((calculateDynamicThresholds usRegionConfig
        ⟨true, none, none⟩ 20 (1/1000)).1
      ≤ (calculateDynamicThresholds usRegionConfig
        ⟨true, none, none⟩ 20 (1/1000)).2) := by
  refine ⟨by norm_num [usRegionConfig], by norm_num [usRegionConfig], ?_, ?_, ?_⟩
  · rw [max_eq_left]
    norm_num [SECONDS_PER_HOUR]
  · norm_num [calculateDynamicThresholds, usRegionConfig,
      MIN_CONSUMPTION_PERCENTAGE, MAX_CONSUMPTION_PERCENTAGE]
  · norm_num [calculateDynamicThresholds, usRegionConfig,
      MIN_CONSUMPTION_PERCENTAGE, MAX_CONSUMPTION_PERCENTAGE]

/-- Claim C4, amended: minThreshold ≤ maxThreshold is guaranteed exactly in
these configurations: both overrides set with min ≤ max (the config flow
enforces min < max when both are supplied); no overrides with adaptive mode
off (region defaults, min ≤ max assumed of the region); no overrides with
adaptive mode on, provided the region's absolute minimum does not exceed
tankSize × 0.05 × intervalHours and tankSize × 0.0001 × intervalHours does
not exceed the absolute maximum.  In general (overrides out of order, or
adaptive bounds collapsed by a small tankSize × interval product) the
resolved pair can violate min ≤ max. -/
theorem c4_amended_threshold_order (rc : RegionConfig) (cfg : CoordConfig)
    (ts h : ℚ) :
    ((∃ mn mx, cfg.min_threshold_override = some mn ∧
        cfg.max_threshold_override = some mx ∧ mn ≤ mx) →
      (calculateDynamicThresholds rc cfg ts h).1
        ≤ (calculateDynamicThresholds rc cfg ts h).2) ∧
    (cfg.min_threshold_override = none → cfg.max_threshold_override = none →
      cfg.use_dynamic_thresholds = false →
      rc.default_min_threshold ≤ rc.default_max_threshold →
      (calculateDynamicThresholds rc cfg ts h).1
        ≤ (calculateDynamicThresholds rc cfg ts h).2) ∧
    (cfg.min_threshold_override = none → cfg.max_threshold_override = none →
      cfg.use_dynamic_thresholds = true →
      0 ≤ ts → 0 ≤ h →
      rc.absolute_min_consumption ≤ rc.absolute_max_consumption →
      rc.absolute_min_consumption ≤ ts * MAX_CONSUMPTION_PERCENTAGE * h →
      ts * MIN_CONSUMPTION_PERCENTAGE * h ≤ rc.absolute_max_consumption →
      (calculateDynamicThresholds rc cfg ts h).1
        ≤ (calculateDynamicThresholds rc cfg ts h).2) := by
  refine ⟨?_, ?_, ?_⟩
  · rintro ⟨mn, mx, hmn, hmx, hle⟩
    simp [calculateDynamicThresholds, hmn, hmx, hle]
  · intro hmn hmx hd _
    simp_all [calculateDynamicThresholds]
  · intro hmn hmx hd hts hh habs hlow hhigh
    have hmono : ts * MIN_CONSUMPTION_PERCENTAGE * h
        ≤ ts * MAX_CONSUMPTION_PERCENTAGE * h := by
      have : (MIN_CONSUMPTION_PERCENTAGE : ℚ) ≤ MAX_CONSUMPTION_PERCENTAGE := by
        norm_num [MIN_CONSUMPTION_PERCENTAGE, MAX_CONSUMPTION_PERCENTAGE]
      have h1 : ts * MIN_CONSUMPTION_PERCENTAGE ≤ ts * MAX_CONSUMPTION_PERCENTAGE :=
        mul_le_mul_of_nonneg_left this hts
      exact mul_le_mul_of_nonneg_right h1 hh
    simp only [calculateDynamicThresholds, hmn, hmx, hd, Option.isSome_none,
      Bool.false_eq_true, false_and, false_or, if_false, Bool.true_eq_false,
      reduceIte]
    exact max_le (le_min habs hlow) (le_min hhigh hmono)

/-- Claim C4, witness for the amended theorem: US region, no overrides,
adaptive mode, tank size 500, interval 1 h. -/
theorem c4_amended_witness :
    (calculateDynamicThresholds usRegionConfig ⟨true, none, none⟩ 500 1).1
      ≤ (calculateDynamicThresholds usRegionConfig ⟨true, none, none⟩ 500 1).2 :=
  (c4_amended_threshold_order usRegionConfig ⟨true, none, none⟩ 500 1).2.2
    rfl rfl rfl (by norm_num) (by norm_num)
    (by norm_num [usRegionConfig])
    (by norm_num [usRegionConfig, MAX_CONSUMPTION_PERCENTAGE])
    (by norm_num [usRegionConfig, MIN_CONSUMPTION_PERCENTAGE])

/-- A raw tank record as handed to the coordinator (`tank` dict): the fields
`_validate_tank_data` / `_process_tank_consumption` read.  `tank_id` is the
normalized id string ("" models a missing/falsy id). -/
structure Tank where
  tank_id : String
  tank_size : PyVal
  level : PyVal
  current_volume : PyVal
deriving DecidableEq, Repr

/-- The coordinator's per-tank mutable state (`coordinator.py` lines 63-68):
`_previous_readings`, `_consumption_totals`, `_data_quality_flags`. -/
structure CoordState where
  previous_readings : List (String × ℚ)
  consumption_totals : List (String × ℚ)
  data_quality_flags : List (String × String)
deriving DecidableEq, Repr

/-- The derived fields `_process_tank_consumption` writes into the tank dict
(`refill_detected`, `consumption_anomaly`, `consumption_total`,
`consumption_rate`, `data_quality`).  The date-derived `days_since_delivery`
field is outside this model; no claim concerns it. -/
structure TankOut where
  refill_detected : Bool
  consumption_anomaly : Bool
  consumption_total : ℚ
  consumption_rate : ℚ
  data_quality : String
deriving DecidableEq, Repr

/-- `_validate_tank_data` (`coordinator.py` lines 166-230): returns the updated
quality-flag dict and the boolean verdict.  The checks run in source order:
tank size parse/bounds, then level parse/range, then the volume/percentage
cross-check with 10% tolerance.  A field that raises on `float()` maps to
`none` from `pyFloat`. -/
def validateTank (rc : RegionConfig) (fl : List (String × String)) (t : Tank) :
    List (String × String) × Bool :=
  match pyFloat 0 t.tank_size with
  | none => (upd fl t.tank_id ("Invalid Tank Size"), false)
  | some tank_size =>
    if ¬ (rc.tank_size_min ≤ tank_size ∧ tank_size ≤ rc.tank_size_max) then
      (upd fl t.tank_id ("Invalid Tank Size"), false)
    else
      match pyFloat (-1) t.level with
      | none => (upd fl t.tank_id ("Invalid Level"), false)
      | some level =>
        if ¬ (0 ≤ level ∧ level ≤ 100) then
          (upd fl t.tank_id ("Invalid Level"), false)
        else
          match pyFloat 0 t.current_volume with
          | none => (upd fl t.tank_id ("Calculation Error"), false)
          | some current_volume =>
            let expected_volume :=
              if tank_size > 0 then level * tank_size / PERCENT_MULTIPLIER else 0
            if tank_size > 0 ∧ expected_volume > 0 then
              let variance := |current_volume - expected_volume| / expected_volume
              if variance > DATA_VALIDATION_TOLERANCE then
                (upd fl t.tank_id ("Inconsistent Values"), false)
              else (upd fl t.tank_id ("Good"), true)
            else
              -- no flag written inside the `try`; the trailing
              -- `if tank_id not in self._data_quality_flags` fills "Good"
              if (lookup fl t.tank_id).isNone then
                (upd fl t.tank_id ("Good"), true)
              else (fl, true)

/-- `max(0.001, interval.total_seconds() / SECONDS_PER_HOUR)`
(`coordinator.py` line 262): the clamped poll interval in hours used as the
consumption-rate divisor. -/
def updateIntervalHours (interval_seconds : ℚ) : ℚ :=
  max (1/1000) (interval_seconds / SECONDS_PER_HOUR)

/-- Python 3 `round` at 4 decimals (banker's rounding at the halfway point),
used for `consumption_rate` (`coordinator.py` line 320). -/
def round4 (x : ℚ) : ℚ :=
  let y := x * 10000
  let f : ℤ := ⌊y⌋
  let r : ℤ :=
    if y - f < 1/2 then f
    else if y - f > 1/2 then f + 1
    else if f % 2 = 0 then f else f + 1
  (r : ℚ) / 10000

/-- `_process_tank_consumption` (`coordinator.py` lines 232-341) for one tank:
validation, threshold computation, refill/anomaly classification, cumulative
total and rate updates.  Returns the updated coordinator state and the derived
fields (`none` when the tank has no id and processing is skipped). -/
def processTank (rc : RegionConfig) (cfg : CoordConfig) (interval_seconds : ℚ)
    (st : CoordState) (t : Tank) : CoordState × Option TankOut :=
  if t.tank_id = "" then (st, none)
  else
    let fl := (validateTank rc st.data_quality_flags t).1
    if (validateTank rc st.data_quality_flags t).2 = false then
      ({ st with data_quality_flags := fl },
       some { refill_detected := false
              consumption_anomaly := false
              consumption_total := (lookup st.consumption_totals t.tank_id).getD 0
              consumption_rate := 0
              data_quality := (lookup fl t.tank_id).getD ("Unknown") })
    else
      match pyFloat 0 t.current_volume, pyFloat 500 t.tank_size with
      | some current_volume, some tank_size =>
        let h := updateIntervalHours interval_seconds
        let thr := calculateDynamicThresholds rc cfg tank_size h
        let prevOpt := lookup st.previous_readings t.tank_id
        let step :=
          match prevOpt with
          | none => (st.consumption_totals, false, false)
          | some previous_volume =>
            let consumption_volume := previous_volume - current_volume
            if consumption_volume < 0 then
              (st.consumption_totals, true, false)
            else if consumption_volume > 0 then
              let consumption_energy :=
                consumption_volume * rc.volume_to_energy_factor
              let base := (lookup st.consumption_totals t.tank_id).getD 0
              let totals' :=
                upd st.consumption_totals t.tank_id (base + consumption_energy)
              if consumption_volume < thr.1 then (totals', false, false)
              else if consumption_volume > thr.2 then (totals', false, true)
              else (totals', false, false)
            else (st.consumption_totals, false, false)
        let totals1 := step.1
        let refill := step.2.1
        let anomaly := step.2.2
        let prev1 := upd st.previous_readings t.tank_id current_volume
        let rate :=
          match prevOpt with
          | some previous_volume =>
            if h > 0 then
              let consumption_volume := previous_volume - current_volume
              if consumption_volume > 0 then
                round4 (consumption_volume * rc.volume_to_energy_factor / h)
              else 0
            else 0
          | none => 0
        ({ previous_readings := prev1
           consumption_totals := totals1
           data_quality_flags := fl },
         some { refill_detected := refill
                consumption_anomaly := anomaly
                consumption_total := (lookup totals1 t.tank_id).getD 0
                consumption_rate := rate
                data_quality := (lookup fl t.tank_id).getD ("Unknown") })
      | _, _ =>
        ({ st with data_quality_flags := fl },
         some { refill_detected := false
                consumption_anomaly := false
                consumption_total := (lookup st.consumption_totals t.tank_id).getD 0
                consumption_rate := 0
                data_quality := "Unknown" })

theorem pyFloat_isSome_of_ne (d d' : ℚ) (x : PyVal)
    (h : (pyFloat d x).isSome) : (pyFloat d' x).isSome := by
  cases x <;> simp_all [pyFloat]

/-- A reading that passes validation has a parseable `current_volume` and
`tank_size` (the `float()` calls at `coordinator.py` lines 252-253 cannot
raise once `_validate_tank_data` returned `True`). -/
theorem validateTank_true_parses (rc : RegionConfig) (fl : List (String × String))
    (t : Tank) (h : (validateTank rc fl t).2 = true) :
    (pyFloat 0 t.current_volume).isSome ∧ (pyFloat 500 t.tank_size).isSome := by
  unfold validateTank at h
  rcases h1 : pyFloat 0 t.tank_size with _ | ts <;> simp only [h1] at h
  · simp at h
  · have hts : (pyFloat 500 t.tank_size).isSome :=
      pyFloat_isSome_of_ne 0 500 _ (by simp [h1])
    refine ⟨?_, hts⟩
    by_cases h2 : rc.tank_size_min ≤ ts ∧ ts ≤ rc.tank_size_max
    · rw [if_neg (not_not_intro h2)] at h
      rcases h3 : pyFloat (-1) t.level with _ | lv <;> simp only [h3] at h
      · simp at h
      · by_cases h4 : 0 ≤ lv ∧ lv ≤ 100
        · rw [if_neg (not_not_intro h4)] at h
          rcases h5 : pyFloat 0 t.current_volume with _ | cv <;> simp only [h5] at h
          · simp at h
          · simp
        · rw [if_pos h4] at h
          simp at h
    · rw [if_pos h2] at h
      simp at h

/-- Claim C1: for every reading that passes validation and has a prior
recorded reading `pv` for its tankId, with `delta = pv - cv`: a positive delta
adds `delta × volume_to_energy_factor` to the cumulative total; a negative
delta leaves the total unchanged and sets `refill_detected`; and in all cases
the stored previous volume afterwards equals the current volume. -/
theorem c1_consumption_accounting (rc : RegionConfig) (cfg : CoordConfig)
    (s : ℚ) (st : CoordState) (t : Tank) (pv cv : ℚ)
    (hid : t.tank_id ≠ "")
    (hval : (validateTank rc st.data_quality_flags t).2 = true)
    (hcv : pyFloat 0 t.current_volume = some cv)
    (hprev : lookup st.previous_readings t.tank_id = some pv) :
    (0 < pv - cv →
      (lookup (processTank rc cfg s st t).1.consumption_totals t.tank_id).getD 0
        = (lookup st.consumption_totals t.tank_id).getD 0
            + (pv - cv) * rc.volume_to_energy_factor) ∧
    (pv - cv < 0 →
      (lookup (processTank rc cfg s st t).1.consumption_totals t.tank_id).getD 0
        = (lookup st.consumption_totals t.tank_id).getD 0 ∧
      ((processTank rc cfg s st t).2.map TankOut.refill_detected) = some true) ∧
    lookup (processTank rc cfg s st t).1.previous_readings t.tank_id = some cv := by
  obtain ⟨-, hts_some⟩ := validateTank_true_parses rc st.data_quality_flags t hval
  obtain ⟨ts, hts⟩ := Option.isSome_iff_exists.mp hts_some
  unfold processTank
  simp only [if_neg hid, hval, Bool.true_eq_false, if_false, hcv, hts, hprev]
  refine ⟨?_, ?_, ?_⟩
  · intro hpos
    have h1 : ¬ (pv - cv < 0) := by linarith
    have h2 : pv - cv > 0 := hpos
    simp only [if_neg h1, if_pos h2, apply_ite, ite_self, lookup_upd_self,
      Option.getD_some]
  · intro hneg
    simp only [if_pos hneg, Option.map_some']
    exact ⟨trivial, trivial⟩
  · simp only [lookup_upd_self]

/-- Claim C1, witness: prior reading 300, current 280 on a validated 500-gal
US tank (level 56%, so the cross-check passes): the positive-delta branch
adds (300-280) × 36.39 to the empty total, and the stored previous volume
becomes 280. -/
theorem c1_consumption_accounting_witness :
    (lookup (processTank usRegionConfig ⟨true, none, none⟩ 3600
        ⟨[("t", 300)], [], []⟩ ⟨"t", .num 500, .num 56, .num 280⟩).1.consumption_totals
        "t").getD 0
      = (lookup ([] : List (String × ℚ)) "t").getD 0
          + ((300 : ℚ) - 280) * usRegionConfig.volume_to_energy_factor ∧
    lookup (processTank usRegionConfig ⟨true, none, none⟩ 3600
        ⟨[("t", 300)], [], []⟩ ⟨"t", .num 500, .num 56, .num 280⟩).1.previous_readings
        "t" = some 280 := by
  have h := c1_consumption_accounting usRegionConfig ⟨true, none, none⟩ 3600
    ⟨[("t", 300)], [], []⟩ ⟨"t", .num 500, .num 56, .num 280⟩ 300 280
    (by decide)
    (by unfold validateTank pyFloat
        norm_num [usRegionConfig, PERCENT_MULTIPLIER, DATA_VALIDATION_TOLERANCE,
          lookup])
    rfl
    (by simp [lookup])
  exact ⟨h.1 (by norm_num), h.2.2⟩

/-- If the tank size passes its checks but the level is unparseable or outside
[0,100], `_validate_tank_data` writes the "Invalid Level" flag and fails. -/
theorem validateTank_invalid_level (rc : RegionConfig) (fl : List (String × String))
    (t : Tank) (ts : ℚ)
    (hts : pyFloat 0 t.tank_size = some ts)
    (hbounds : rc.tank_size_min ≤ ts ∧ ts ≤ rc.tank_size_max)
    (hlv : pyFloat (-1) t.level = none ∨
      ∃ lv, pyFloat (-1) t.level = some lv ∧ ¬ (0 ≤ lv ∧ lv ≤ 100)) :
    validateTank rc fl t = (upd fl t.tank_id ("Invalid Level"), false) := by
  unfold validateTank
  simp only [hts]
  rw [if_neg (not_not_intro hbounds)]
  rcases hlv with hnone | ⟨lv, hsome, hout⟩
  · simp only [hnone]
  · simp only [hsome]
    rw [if_pos hout]

/-- Claim C3, counterexample: a reading whose level 150 is outside [0,100] but
whose tank size 0 is also invalid gets quality flag "Invalid Tank Size", not
"Invalid Level" (the size check at `coordinator.py` line 172 runs first).  The
rest of the claim still holds: total kept at 7, rate 0, previous reading kept
at 100. -/
theorem c3_counterexample :
    ¬ ((0:ℚ) ≤ 150 ∧ (150:ℚ) ≤ 100) ∧
    (processTank usRegionConfig ⟨true, none, none⟩ 3600
        ⟨[("t", 100)], [("t", 7)], []⟩ ⟨"t", .num 0, .num 150, .num 150⟩).2
      = some { refill_detected := false, consumption_anomaly := false,
               consumption_total := 7, consumption_rate := 0,
               data_quality := "Invalid Tank Size" } ∧
    "Invalid Tank Size" ≠ "Invalid Level" := by
  refine ⟨by norm_num, ?_, by decide⟩
  have hne : ¬ ("t" = "") := by decide
  norm_num [processTank, validateTank, pyFloat, usRegionConfig, lookup, upd,
    if_neg hne]

/-- Claim C3, amended: for every tank reading whose tank size parses within the
region bounds but whose level does not parse or is outside [0,100], the quality
flag is "Invalid Level", the cumulative totals and previous readings are
untouched, the reported total is the stored one, and the rate is 0.  (When the
tank size is itself invalid, the earlier size check wins and the flag is
"Invalid Tank Size" instead.) -/
theorem c3_amended_invalid_level (rc : RegionConfig) (cfg : CoordConfig)
    (s : ℚ) (st : CoordState) (t : Tank) (ts : ℚ)
    (hid : t.tank_id ≠ "")
    (hts : pyFloat 0 t.tank_size = some ts)
    (hbounds : rc.tank_size_min ≤ ts ∧ ts ≤ rc.tank_size_max)
    (hlv : pyFloat (-1) t.level = none ∨
      ∃ lv, pyFloat (-1) t.level = some lv ∧ ¬ (0 ≤ lv ∧ lv ≤ 100)) :
    (processTank rc cfg s st t).1.consumption_totals = st.consumption_totals ∧
    (processTank rc cfg s st t).1.previous_readings = st.previous_readings ∧
    lookup (processTank rc cfg s st t).1.data_quality_flags t.tank_id
      = some ("Invalid Level") ∧
    (processTank rc cfg s st t).2
      = some { refill_detected := false, consumption_anomaly := false,
               consumption_total := (lookup st.consumption_totals t.tank_id).getD 0,
               consumption_rate := 0, data_quality := "Invalid Level" } := by
  have hv := validateTank_invalid_level rc st.data_quality_flags t ts hts hbounds hlv
  unfold processTank
  simp only [if_neg hid, hv, eq_self_iff_true, if_true, lookup_upd_self,
    Option.getD_some]
  exact ⟨trivial, trivial, trivial, trivial⟩

/-- Claim C3, witness for the amended theorem: tank size 500 (valid for the US
region), level 150 (outside [0,100]): flag "Invalid Level", totals and
previous readings untouched, rate 0. -/
theorem c3_amended_witness :
    (processTank usRegionConfig ⟨true, none, none⟩ 3600
        ⟨[("t", 100)], [("t", 7)], []⟩
        ⟨"t", .num 500, .num 150, .num 140⟩).1.consumption_totals = [("t", 7)] ∧
    (processTank usRegionConfig ⟨true, none, none⟩ 3600
        ⟨[("t", 100)], [("t", 7)], []⟩
        ⟨"t", .num 500, .num 150, .num 140⟩).1.previous_readings = [("t", 100)] ∧
    lookup (processTank usRegionConfig ⟨true, none, none⟩ 3600
        ⟨[("t", 100)], [("t", 7)], []⟩
        ⟨"t", .num 500, .num 150, .num 140⟩).1.data_quality_flags ("t")
      = some ("Invalid Level") ∧
    (processTank usRegionConfig ⟨true, none, none⟩ 3600
        ⟨[("t", 100)], [("t", 7)], []⟩
        ⟨"t", .num 500, .num 150, .num 140⟩).2
      = some { refill_detected := false, consumption_anomaly := false,
               consumption_total := (lookup [("t", (7:ℚ))] "t").getD 0,
               consumption_rate := 0, data_quality := "Invalid Level" } :=
  c3_amended_invalid_level usRegionConfig ⟨true, none, none⟩ 3600
    ⟨[("t", 100)], [("t", 7)], []⟩ ⟨"t", .num 500, .num 150, .num 140⟩ 500
    (by decide) rfl (by norm_num [usRegionConfig])
    (Or.inr ⟨150, rfl, by norm_num⟩)

/-- Claim C5, counterexample: US region, no overrides, adaptive thresholds,
1-second poll interval (clamped to 0.001 h), validated 20-gal tank with prior
reading 10.005 and current reading 10.  The thresholds resolve to
(0.01, 0.001) and the delta 0.005 exceeds maxThreshold 0.001, yet no anomaly
is flagged, because the `delta < minThreshold` branch
(`coordinator.py` line 285) is checked first and 0.005 < 0.01. -/
theorem c5_counterexample :
    (validateTank usRegionConfig [] ⟨"t", .num 20, .num 50, .num 10⟩).2 = true ∧
    (0:ℚ) < 2001/200 - 10 ∧
    2001/200 - 10
      > (calculateDynamicThresholds usRegionConfig ⟨true, none, none⟩ 20
          (updateIntervalHours 1)).2 ∧
    (processTank usRegionConfig ⟨true, none, none⟩ 1
        ⟨[("t", 2001/200)], [], []⟩ ⟨"t", .num 20, .num 50, .num 10⟩).2.map
        TankOut.consumption_anomaly = some false := by
  have hne : ¬ ("t" = "") := by decide
  refine ⟨?_, by norm_num, ?_, ?_⟩
  · unfold validateTank pyFloat
    norm_num [usRegionConfig, PERCENT_MULTIPLIER, DATA_VALIDATION_TOLERANCE,
      lookup]
  · norm_num [calculateDynamicThresholds, updateIntervalHours, usRegionConfig,
      MIN_CONSUMPTION_PERCENTAGE, MAX_CONSUMPTION_PERCENTAGE, SECONDS_PER_HOUR]
  · norm_num [processTank, validateTank, pyFloat, usRegionConfig, lookup, upd,
      if_neg hne, calculateDynamicThresholds, updateIntervalHours,
      MIN_CONSUMPTION_PERCENTAGE, MAX_CONSUMPTION_PERCENTAGE,
      PERCENT_MULTIPLIER, DATA_VALIDATION_TOLERANCE, SECONDS_PER_HOUR,
      Option.map_some']

/-- Claim C5, amended: for every validated reading with a prior reading and a
positive delta, the energy delta is added to the cumulative total
unconditionally; the anomaly flag is set exactly when the delta is not below
minThreshold and exceeds maxThreshold (the low-consumption branch is checked
first and wins); in particular a delta below minThreshold is never flagged. -/
theorem c5_amended_unconditional_accumulation (rc : RegionConfig)
    (cfg : CoordConfig) (s : ℚ) (st : CoordState) (t : Tank) (pv cv ts : ℚ)
    (hid : t.tank_id ≠ "")
    (hval : (validateTank rc st.data_quality_flags t).2 = true)
    (hcv : pyFloat 0 t.current_volume = some cv)
    (hts : pyFloat 500 t.tank_size = some ts)
    (hprev : lookup st.previous_readings t.tank_id = some pv)
    (hpos : 0 < pv - cv) :
    (lookup (processTank rc cfg s st t).1.consumption_totals t.tank_id).getD 0
      = (lookup st.consumption_totals t.tank_id).getD 0
          + (pv - cv) * rc.volume_to_energy_factor ∧
    ((processTank rc cfg s st t).2.map TankOut.consumption_anomaly = some true
      ↔ ¬ pv - cv
            < (calculateDynamicThresholds rc cfg ts (updateIntervalHours s)).1
        ∧ pv - cv
            > (calculateDynamicThresholds rc cfg ts (updateIntervalHours s)).2) ∧
    (pv - cv < (calculateDynamicThresholds rc cfg ts (updateIntervalHours s)).1 →
      (processTank rc cfg s st t).2.map TankOut.consumption_anomaly
        = some false) := by
  have h1 : ¬ (pv - cv < 0) := by linarith
  have h2 : pv - cv > 0 := hpos
  unfold processTank
  simp only [if_neg hid, hval, Bool.true_eq_false, if_false, hcv, hts, hprev,
    if_neg h1, if_pos h2, Option.map_some']
  by_cases hmin : pv - cv
      < (calculateDynamicThresholds rc cfg ts (updateIntervalHours s)).1
  · simp only [if_pos hmin, lookup_upd_self, Option.getD_some]
    refine ⟨trivial, ?_, fun _ => trivial⟩
    constructor
    · intro hcontr
      cases hcontr
    · rintro ⟨hnot, -⟩
      exact absurd hmin hnot
  · by_cases hmax : pv - cv
        > (calculateDynamicThresholds rc cfg ts (updateIntervalHours s)).2
    · simp only [if_neg hmin, if_pos hmax, lookup_upd_self, Option.getD_some]
      exact ⟨trivial, by simp [hmin, hmax], fun hc => absurd hc hmin⟩
    · simp only [if_neg hmin, if_neg hmax, lookup_upd_self, Option.getD_some]
      refine ⟨trivial, ?_, fun hc => absurd hc hmin⟩
      constructor
      · intro hcontr
        cases hcontr
      · rintro ⟨-, hgt⟩
        exact absurd hgt hmax

/-- Claim C5, witness for the amended theorem: validated 500-gal US tank,
prior 300, current 280, 1-h interval: thresholds (0.05, 25), delta 20 is
between them, energy 727.8 is added and no anomaly is flagged. -/
theorem c5_amended_witness :
    (lookup (processTank usRegionConfig ⟨true, none, none⟩ 3600
        ⟨[("t", 300)], [], []⟩
        ⟨"t", .num 500, .num 56, .num 280⟩).1.consumption_totals ("t")).getD 0
      = (lookup ([] : List (String × ℚ)) "t").getD 0
          + ((300 : ℚ) - 280) * usRegionConfig.volume_to_energy_factor ∧
    ((processTank usRegionConfig ⟨true, none, none⟩ 3600
        ⟨[("t", 300)], [], []⟩ ⟨"t", .num 500, .num 56, .num 280⟩).2.map
        TankOut.consumption_anomaly = some true
      ↔ ¬ (300 : ℚ) - 280
            < (calculateDynamicThresholds usRegionConfig ⟨true, none, none⟩ 500
                (updateIntervalHours 3600)).1
        ∧ (300 : ℚ) - 280
            > (calculateDynamicThresholds usRegionConfig ⟨true, none, none⟩ 500
                (updateIntervalHours 3600)).2) := by
  have h := c5_amended_unconditional_accumulation usRegionConfig
    ⟨true, none, none⟩ 3600 ⟨[("t", 300)], [], []⟩
    ⟨"t", .num 500, .num 56, .num 280⟩ 300 280 500
    (by decide)
    (by unfold validateTank pyFloat
        norm_num [usRegionConfig, PERCENT_MULTIPLIER, DATA_VALIDATION_TOLERANCE,
          lookup])
    rfl rfl (by simp [lookup]) (by norm_num)
  exact ⟨h.1, h.2.1⟩

/-- Claim C10: the consumption-rate divisor
`max(0.001, interval.total_seconds() / 3600)` is clamped below by 0.001 before
any division, so it is at least 0.001 and strictly positive for every
configured update interval, including zero (and even negative) ones; the rate
computation `consumption_energy / update_interval_hours` in `processTank` is
therefore never a division by zero. -/
theorem c10_rate_divisor_clamped (interval_seconds : ℚ) :
    (1/1000 : ℚ) ≤ updateIntervalHours interval_seconds ∧
    0 < updateIntervalHours interval_seconds ∧
    updateIntervalHours interval_seconds ≠ 0 := by
  have h1 : (1/1000 : ℚ) ≤ updateIntervalHours interval_seconds :=
    le_max_left _ _
  have h2 : (0:ℚ) < updateIntervalHours interval_seconds :=
    lt_of_lt_of_le (by norm_num) h1
  exact ⟨h1, h2, ne_of_gt h2⟩

/-- A data snapshot returned by a successful poll cycle
(`{"tanks": ..., "orders": ...}`), abstracted. -/
abbrev Snapshot : Type := Nat

/-- Substring test used to model Python `needle in hay` on strings:
`charsLeadOf n h` is "n is a leading segment of h". -/
def charsLeadOf : List Char → List Char → Bool
  | [], _ => true
  | _ :: _, [] => false
  | a :: as, b :: bs => a == b && charsLeadOf as bs

/-- `charsWithin n h`: the character list `n` occurs contiguously in `h`. -/
def charsWithin (needle : List Char) : List Char → Bool
  | [] => charsLeadOf needle []
  | b :: bs => charsLeadOf needle (b :: bs) || charsWithin needle bs

/-- `"maintenance" in str(exc).lower()` (`coordinator.py` line 374), on the
character-list view of the text so that concrete instances compute. -/
def containsMaintenance (s : String) : Bool :=
  charsWithin (String.toList ("maintenance")) (s.toList.map Char.toLower)

/-- `_is_data_fresh` (`coordinator.py` lines 99-104), with the age of the last
successful update supplied in hours (`none` models
`last_successful_update_time is None`). -/
def isDataFresh (last_success_age_hours : Option ℚ) : Bool :=
  match last_success_age_hours with
  | none => false
  | some age => decide (age < MAX_STALE_DATA_HOURS)

/-- The `CommunicationError` handler of `_async_update_data`
(`coordinator.py` lines 373-382): pick the new polling interval (3600 s for a
maintenance message, otherwise the region retry interval), then return the
previous snapshot if one exists and is fresh, else fail the cycle.
`prev_data = none` models a falsy `self.data`. -/
def handleCommunicationError (retry_interval : ℚ) (err_text : String)
    (prev_data : Option Snapshot) (last_success_age_hours : Option ℚ) :
    ℚ × Except String Snapshot :=
  let new_interval :=
    if containsMaintenance err_text then 3600 else retry_interval
  match prev_data with
  | some d =>
      if isDataFresh last_success_age_hours then (new_interval, .ok d)
      else (new_interval, .error ("Communication error: " ++ err_text))
  | none => (new_interval, .error ("Communication error: " ++ err_text))

/-- Claim C8: on a `CommunicationError` the polling interval becomes the retry
interval, or one hour when the error text contains "maintenance"; then the
previous snapshot is returned iff it exists and its age is under 4 hours,
otherwise the cycle fails. -/
theorem c8_communication_error_fallback (retry_interval : ℚ) (err : String)
    (d : Snapshot) (age : ℚ) (prev : Option Snapshot) (ageO : Option ℚ) :
    ((handleCommunicationError retry_interval err prev ageO).1
      = if containsMaintenance err then 3600 else retry_interval) ∧
    (prev = some d → ageO = some age → age < MAX_STALE_DATA_HOURS →
      (handleCommunicationError retry_interval err prev ageO).2 = .ok d) ∧
    (prev = some d → ageO = some age → ¬ age < MAX_STALE_DATA_HOURS →
      (handleCommunicationError retry_interval err prev ageO).2
        = .error ("Communication error: " ++ err)) ∧
    (prev = none →
      (handleCommunicationError retry_interval err prev ageO).2
        = .error ("Communication error: " ++ err)) ∧
    (ageO = none →
      (handleCommunicationError retry_interval err prev ageO).2
        = .error ("Communication error: " ++ err)) := by
  refine ⟨?_, ?_, ?_, ?_, ?_⟩
  · cases prev
    · simp [handleCommunicationError, isDataFresh]
    · simp only [handleCommunicationError, isDataFresh]
      split_ifs <;> rfl
  · rintro rfl rfl hfresh
    simp [handleCommunicationError, isDataFresh, hfresh]
  · rintro rfl rfl hstale
    simp [handleCommunicationError, isDataFresh, hstale]
  · rintro rfl
    simp [handleCommunicationError]
  · rintro rfl
    cases prev <;> simp [handleCommunicationError, isDataFresh]

/-- Claim C8, witness: a fresh 2-hour-old snapshot is returned on a plain
communication error, and a maintenance-flavoured error switches the interval
to 3600 s. -/
theorem c8_communication_error_fallback_witness :
    (handleCommunicationError 300 ("HTTP 502") (some (5 : Nat)) (some 2)).2
      = .ok (5 : Nat) ∧
    (handleCommunicationError 300 ("Site under scheduled maintenance")
        (some (5 : Nat)) (some 2)).1 = 3600 := by
  constructor
  · exact (c8_communication_error_fallback 300 ("HTTP 502") (5 : Nat) 2
      (some (5 : Nat)) (some 2)).2.1 rfl rfl
      (by norm_num [MAX_STALE_DATA_HOURS])
  · have hm : containsMaintenance ("Site under scheduled maintenance") = true := by
      decide
    exact ((c8_communication_error_fallback 300
      "Site under scheduled maintenance" (5 : Nat) 2
      (some (5 : Nat)) (some 2)).1).trans (by simp [hm])

/-- Outcome of one underlying network operation of the US client:
success, `AuthenticationError` (which `SessionExpired` is a subtype of),
`CommunicationError`, or a plain `ApiClientError`. -/
inductive USOutcome where
  | ok
  | authErr
  | commErr
  | genErr
deriving DecidableEq, Repr

/-- Observable actions of `async_get_tanks_data` (`api_us.py`). -/
inductive USEvent where
  | ensureCall
  | fetchCall
  | clearAuthenticated
deriving DecidableEq, Repr

/-- Result of `async_get_tanks_data`: tank data obtained on the given round,
or a propagated error. -/
inductive USResult where
  | tanks (round : Nat)
  | failure (k : USOutcome)
deriving DecidableEq, Repr

/-- The retry round of `async_get_tanks_data` (`api_us.py` lines 82-86): after
an `AuthenticationError`, clear the authenticated flag, re-run
`_ensure_authenticated` and `_get_tanks_from_page` once.  Exceptions raised
here escape the whole `try` (another handler of the same `try` cannot catch
an exception raised inside a handler), so any error propagates unchanged. -/
def usRetryRound (trace : List USEvent) (e2 f2 : USOutcome) :
    USResult × List USEvent :=
  match e2 with
  | .ok =>
    match f2 with
    | .ok => (.tanks 2, trace ++ [.clearAuthenticated, .ensureCall, .fetchCall])
    | k => (.failure k, trace ++ [.clearAuthenticated, .ensureCall, .fetchCall])
  | k => (.failure k, trace ++ [.clearAuthenticated, .ensureCall])

/-- `async_get_tanks_data` (`api_us.py` lines 77-92), with the outcomes of the
underlying operations supplied as an oracle: `e1`/`f1` are the results of the
first `_ensure_authenticated`/`_get_tanks_from_page` round, `e2`/`f2` of the
retry round.  An `AuthenticationError` from the first round is caught and
retried exactly once; `commErr`/`genErr` are `ApiClientError`s and re-raised
by the `except SuperiorPlusPropaneApiClientError: raise` handler. -/
def usGetTanksData (e1 f1 e2 f2 : USOutcome) : USResult × List USEvent :=
  match e1 with
  | .ok =>
    match f1 with
    | .ok => (.tanks 1, [.ensureCall, .fetchCall])
    | .authErr => usRetryRound [.ensureCall, .fetchCall] e2 f2
    | k => (.failure k, [.ensureCall, .fetchCall])
  | .authErr => usRetryRound [.ensureCall] e2 f2
  | k => (.failure k, [.ensureCall])

/-- Claim C7: when the first fetch raises `SessionExpired` (an
`AuthenticationError`), the client clears its authenticated flag and retries
the whole fetch exactly once — the trace never contains more than two fetch
calls — and, when re-authentication succeeds, the retried round's trace is
exactly ensure, fetch, clear-flag, ensure, fetch; a second failure of any
kind propagates to the caller unchanged. -/
theorem c7_session_expired_retries_once (e2 f2 : USOutcome) :
    (usGetTanksData .ok .authErr e2 f2).2.count USEvent.fetchCall ≤ 2 ∧
    (e2 = .ok →
      (usGetTanksData .ok .authErr e2 f2).2
        = [.ensureCall, .fetchCall, .clearAuthenticated, .ensureCall,
           .fetchCall] ∧
      (f2 = .ok → (usGetTanksData .ok .authErr e2 f2).1 = .tanks 2) ∧
      (f2 ≠ .ok → (usGetTanksData .ok .authErr e2 f2).1 = .failure f2)) := by
  cases e2 <;> cases f2 <;> simp [usGetTanksData, usRetryRound, List.count_cons]

/-- Claim C7, witness: first fetch expires the session, the retried fetch
fails again with an `AuthenticationError`: exactly two fetch calls and the
second error propagates. -/
theorem c7_session_expired_retries_once_witness :
    (usGetTanksData .ok .authErr .ok .authErr).2.count USEvent.fetchCall ≤ 2 ∧
    (usGetTanksData .ok .authErr .ok .authErr).2
      = [.ensureCall, .fetchCall, .clearAuthenticated, .ensureCall,
         .fetchCall] ∧
    (usGetTanksData .ok .authErr .ok .authErr).1 = .failure .authErr := by
  have h := c7_session_expired_retries_once .ok .authErr
  exact ⟨h.1, (h.2 rfl).1, (h.2 rfl).2.2 (by decide)⟩

/-- Per-client session state of the CA client (`SuperiorPropaneApiBase`):
the `_authenticated` and `_auth_in_progress` flags and the cookie jar. -/
structure CAState where
  authenticated : Bool
  auth_in_progress : Bool
  cookies : List (String × String)
deriving DecidableEq, Repr

/-- Observable actions of the CA client during `async_get_tanks_data`. -/
inductive CAEvent where
  | clearCookieJar
  | setUnauthenticated
  | validateDashboard
  | getLoginPage
  | getCsrfToken
  | loginPost
  | authSettleSleep
  | readTanks
deriving DecidableEq, Repr

/-- `_authenticate` (`api_ca.py` lines 112-157), success path: guarded by
`_auth_in_progress`; performs the login-page GET, CSRF-token acquisition and
the login POST, then marks the session authenticated. -/
def caAuthenticate (st : CAState) : CAState × List CAEvent :=
  if st.auth_in_progress then (st, [])
  else ({ st with authenticated := true },
        [.getLoginPage, .getCsrfToken, .loginPost])

/-- `_ensure_authenticated` (`api_ca.py` lines 87-110): when the session is
flagged authenticated, validate it against the dashboard (the oracle
`validation_ok` says whether that validation succeeds); then authenticate if
the flag is (or has become) false, sleeping `auth_settle_delay` after. -/
def caEnsureAuthenticated (rc : RegionConfig) (validation_ok : Bool)
    (st : CAState) : CAState × List CAEvent :=
  let step1 : CAState × List CAEvent :=
    if st.authenticated then
      ({ st with authenticated := validation_ok }, [.validateDashboard])
    else (st, [])
  if step1.1.authenticated = false then
    let step2 := caAuthenticate step1.1
    let sleep : List CAEvent :=
      if rc.auth_settle_delay > 0 then [.authSettleSleep] else []
    (step2.1, step1.2 ++ step2.2 ++ sleep)
  else step1

/-- `async_get_tanks_data` of the CA client (`api_ca.py` lines 76-81): clear
the cookie jar, force `_authenticated = False`, ensure authentication, then
read the tanks. -/
def caGetTanksData (rc : RegionConfig) (validation_ok : Bool) (st : CAState) :
    CAState × List CAEvent :=
  let st1 : CAState := { st with cookies := [], authenticated := false }
  let step := caEnsureAuthenticated rc validation_ok st1
  (step.1,
   .clearCookieJar :: .setUnauthenticated :: (step.2 ++ [.readTanks]))

/-- Claim C9: every CA tank fetch first clears the cookie jar and the
authenticated flag, so — whatever the prior session state and whatever a
session validation would have said — the full authentication sequence
(login-page GET, CSRF acquisition, login POST) runs on every poll cycle and
the dashboard session-validation branch is never taken. -/
theorem c9_ca_reauth_every_cycle (rc : RegionConfig) (validation_ok : Bool)
    (st : CAState) (hnp : st.auth_in_progress = false) :
    (caGetTanksData rc validation_ok st).2
      = .clearCookieJar :: .setUnauthenticated ::
        ([.getLoginPage, .getCsrfToken, .loginPost]
          ++ (if rc.auth_settle_delay > 0 then [CAEvent.authSettleSleep] else [])
          ++ [.readTanks]) ∧
    CAEvent.validateDashboard ∉ (caGetTanksData rc validation_ok st).2 ∧
    (caGetTanksData rc validation_ok st).1.authenticated = true := by
  unfold caGetTanksData caEnsureAuthenticated caAuthenticate
  simp only [Bool.false_eq_true, if_false, hnp]
  by_cases hd : rc.auth_settle_delay > 0 <;>
    simp [hd, List.mem_append]

/-- Claim C9, witness: CA region config (settle delay 8 s), previously
authenticated session with cookies present — the cycle still performs the
full sequence. -/
theorem c9_ca_reauth_every_cycle_witness :
    (caGetTanksData caRegionConfig true
        ⟨true, false, [("csrf_cookie_name", "x")]⟩).2
      = .clearCookieJar :: .setUnauthenticated ::
        ([.getLoginPage, .getCsrfToken, .loginPost]
          ++ (if caRegionConfig.auth_settle_delay > 0
              then [CAEvent.authSettleSleep] else [])
          ++ [.readTanks]) ∧
    CAEvent.validateDashboard
      ∉ (caGetTanksData caRegionConfig true
          ⟨true, false, [("csrf_cookie_name", "x")]⟩).2 ∧
    (caGetTanksData caRegionConfig true
        ⟨true, false, [("csrf_cookie_name", "x")]⟩).1.authenticated = true :=
  c9_ca_reauth_every_cycle caRegionConfig true
    ⟨true, false, [("csrf_cookie_name", "x")]⟩ rfl

/-- `_TANK_PAGE_SIZE` (`api_ca.py` line 33). -/
def TANK_PAGE_SIZE : Nat := 10

/-- One decoded page response of the CA `readTanks` endpoint as consumed by
`_get_tanks_from_api` (`api_ca.py` lines 296-331): the JSON `status` field,
the decoded `data` row list (rows abstracted to their identities; in this
happy-path model every row parses, so `tanks_in_batch = data.length`), and
the optional JSON `finished` field (read as
`response_json.get("finished", True)`). -/
structure PageResp where
  status : Bool
  data : List Nat
  finished : Option Bool
deriving DecidableEq, Repr

/-- The pagination loop of `_get_tanks_from_api` (`api_ca.py` lines 257-381)
on its happy path (no timeouts or JSON decode errors, so the inner retry loop
runs each page exactly once).  `pages` lists the server's responses for
offsets 0, 10, 20, ...; `acc` is the `tanks_data` accumulator.  `.error`
models raising `SuperiorPlusPropaneApiClientError`; exhausting the supplied
responses is also an error (the real loop would keep requesting). -/
def getTanksFromApi : List PageResp → List Nat → Except String (List Nat)
  | [], _ => .error ("no response")
  | r :: rest, acc =>
    if r.status = false then
      -- status false: stop cleanly only with an empty list after earlier tanks
      if acc ≠ [] ∧ r.data = [] then .ok acc
      else .error ("Tank API error")
    else if r.data = [] then .ok acc
    else
      let acc1 := acc ++ r.data
      let fin := r.finished.getD true
      let fin1 := if r.data.length < TANK_PAGE_SIZE then true else fin
      if fin1 then .ok acc1
      else getTanksFromApi rest acc1

/-- Claim C6: CA pagination terminates when the server signals finished, when
a page yields fewer tanks than the page size 10, when an empty page is
returned, or when the server reports failure status with an empty payload
after at least one successful page; and in the scenario where page 1 returns
10 rows and page 2 returns 3 rows, fetching stops after page 2 with all 13
tanks returned. -/
theorem c6_pagination_termination (rest : List PageResp) (acc rows : List Nat)
    (f : Option Bool) :
    (getTanksFromApi (⟨true, rows, some true⟩ :: rest) acc
      = .ok (if rows = [] then acc else acc ++ rows)) ∧
    (rows.length < TANK_PAGE_SIZE →
      getTanksFromApi (⟨true, rows, f⟩ :: rest) acc
        = .ok (if rows = [] then acc else acc ++ rows)) ∧
    (getTanksFromApi (⟨true, [], f⟩ :: rest) acc = .ok acc) ∧
    (acc ≠ [] →
      getTanksFromApi (⟨false, [], f⟩ :: rest) acc = .ok acc) ∧
    (getTanksFromApi
        [⟨true, [0, 1, 2, 3, 4, 5, 6, 7, 8, 9], some false⟩,
         ⟨true, [10, 11, 12], some false⟩] []
      = .ok [0, 1, 2, 3, 4, 5, 6, 7, 8, 9, 10, 11, 12]) := by
  refine ⟨?_, ?_, ?_, ?_, by rfl⟩
  · by_cases hrows : rows = [] <;>
      simp [getTanksFromApi, hrows]
  · intro hlen
    by_cases hrows : rows = [] <;>
      simp [getTanksFromApi, hrows, hlen]
  · simp [getTanksFromApi]
  · intro hacc
    simp [getTanksFromApi, hacc]

/-- Claim C6, witness: the short-page conjunct at a concrete 3-row page with
`finished = some false`, and the failure-status conjunct after one collected
tank. -/
theorem c6_pagination_termination_witness :
    (getTanksFromApi [⟨true, [7, 8, 9], some false⟩] [0]
      = .ok (if ([7, 8, 9] : List Nat) = [] then [0] else [0] ++ [7, 8, 9])) ∧
    (getTanksFromApi [⟨false, [], some false⟩] [0] = .ok [0]) := by
  constructor
  · exact (c6_pagination_termination [] [0] [7, 8, 9] (some false)).2.1
      (by decide)
  · exact (c6_pagination_termination [] [0] [] (some false)).2.2.2.1
      (by decide)

end SuperiorPropane
